import Mathlib

/-!
Verification development for the plant-documentation chat bot
(Garden-Steward/plant-bot).

The definitions below are a shallow embedding of the conversation state
machine and its helpers, translated from the repository sources:

* `src/bot.js` — the inbound-message handler (`bot.on('message')`), the
  `/newplanting`, `/addplant` and `/cancel` command handlers, and the
  `callback_query` handler;
* `src/helpers/botImages.js` — `handlePhotoUpload`, `analyzeImage`,
  `processImage`;
* `src/unnamed/part_001` (the feature-complete helpers variant the
  specification follows) — `STATES`, `initSession`, `isConnectionError`,
  `saveToStrapi`, `handleLocation`;
* `src/helpers/botHelpers.js` — `initSession`, `isConnectionError` and the
  `askForPlantName` state write agree with the `part_001` variant used here.

Modelling conventions: JavaScript `null`/`undefined` fields are `Option`;
throwing is `Except.error` / an explicit error slot; external effects
(remote user lookup, file upload, the multimodal classifier, the
content-store POST, `Date.now()`) are supplied per step as explicit
oracle values describing the collaborator response.  Coordinates are
carried opaquely (no arithmetic is performed on them in the source) and
are modelled as integers.
-/

namespace PlantBot

/-- The `STATES` enum of `src/unnamed/part_001` lines 7-13 (identical in
`src/helpers/botHelpers.js` lines 10-16). -/
inductive BotState where
  | IDLE
  | WAITING_FOR_PLANT_NAME
  | WAITING_FOR_IMAGE
  | WAITING_FOR_LOCATION
  | WAITING_FOR_PHONE
deriving DecidableEq, Repr

/-- A latitude/longitude pair as delivered by a location share.  The source
performs no arithmetic on coordinates, so they are carried opaquely. -/
structure Coord where
  latitude : Int
  longitude : Int
deriving DecidableEq, Repr

/-- The per-conversation mutable session record.  Fields present in the
fresh session literal of `initSession` (`src/unnamed/part_001` lines 70-80)
plus the fields the handlers attach dynamically (`closeImageId`,
`locationImageId`, `pendingLocationImageId`, `isPlant`, `confidence`,
`username`); dynamically-attached fields start out `undefined`, i.e.
`none`. -/
structure Session where
  state : BotState
  phoneNumber : Option String
  userId : Option Nat
  username : Option String
  plantName : Option String
  imageUrl : Option String
  imageAnalysis : Option String
  location : Option Coord
  isNewPlanting : Bool
  imageReceived : Bool
  closeImageId : Option Nat
  locationImageId : Option Nat
  pendingLocationImageId : Option Nat
  isPlant : Option Bool
  confidence : Option String
deriving DecidableEq, Repr

/-- The fresh session created by `initSession` when no session exists for
the chat id (`src/unnamed/part_001` lines 70-80): state `IDLE`, identity,
plant and location fields null, `isNewPlanting` and `imageReceived`
false; every dynamically-attached field is still `undefined`. -/
def initialSession : Session :=
  { state := BotState.IDLE
    phoneNumber := none
    userId := none
    username := none
    plantName := none
    imageUrl := none
    imageAnalysis := none
    location := none
    isNewPlanting := false
    imageReceived := false
    closeImageId := none
    locationImageId := none
    pendingLocationImageId := none
    isPlant := none
    confidence := none }

/-- A JavaScript `Error` as inspected by `isConnectionError`: an optional
`code` property and a `message` string. -/
structure JsError where
  code : Option String
  message : String
deriving DecidableEq, Repr

/-- The fixed maintenance text (`MAINTENANCE_MESSAGE`,
`src/unnamed/part_001` line 4). -/
def MAINTENANCE_MESSAGE : String :=
  "🛠️ The service is temporarily undergoing maintenance. Please try again later. We apologize for the inconvenience."

/-- `error.message.includes(pat)` — substring containment on strings. -/
def strIncludes (s pat : String) : Bool :=
  decide (pat.toList <:+: s.toList)

/-- `isConnectionError` (`src/unnamed/part_001` lines 15-20, identical in
`src/helpers/botHelpers.js` lines 18-23): the error code is
`ECONNREFUSED`, `ECONNRESET` or `ETIMEDOUT`, or the message contains
`connect`. -/
def isConnectionError (e : JsError) : Bool :=
  e.code == some "ECONNREFUSED" ||
  e.code == some "ECONNRESET" ||
  e.code == some "ETIMEDOUT" ||
  strIncludes e.message "connect"

/-! ## Image upload (`src/helpers/botImages.js` lines 5-62) -/

/-- Sanitisation of the plant name for the upload filename
(`src/helpers/botImages.js` lines 13-16): lowercase, replace every
character outside `[a-z0-9]` with an underscore, keep the first 30
characters. -/
def sanitizePlantName (s : String) : String :=
  String.mk ((((s.toList.map Char.toLower).map
    (fun c => if (('a' ≤ c ∧ c ≤ 'z') ∨ ('0' ≤ c ∧ c ≤ '9')) then c else '_'))).take 30)

/-- The upload filename (`src/helpers/botImages.js` lines 10-17): the
session's plant name, or the fallback label `unknown plant` when it is
null, sanitised and suffixed with the current timestamp and `.jpg`. -/
def uploadFilename (plantName : Option String) (ts : Nat) : String :=
  sanitizePlantName (plantName.getD "unknown plant") ++ "_" ++ toString ts ++ ".jpg"

/-- Outcome of the file-upload exchange performed by `handlePhotoUpload`:
the Telegram file fetch may fail (its error propagates raw), the Strapi
POST may succeed with a `{id, url}` record, return a malformed body, or
fail at the transport level. -/
inductive UploadOutcome where
  | success (fileId : Nat) (fileUrl : String)
  | invalidResponse
  | missingId
  | netError (e : JsError)
  | fetchError (e : JsError)
deriving DecidableEq, Repr

/-- The rethrow in the upload `catch` block (`src/helpers/botImages.js`
lines 55-61): connection-class failures become the maintenance message,
everything else is wrapped as a `Failed to upload image:` error. -/
def uploadCatch (e : JsError) : String :=
  if isConnectionError e then MAINTENANCE_MESSAGE
  else "Failed to upload image: " ++ e.message

/-- `handlePhotoUpload` of `src/helpers/botImages.js` lines 5-62.  Returns
the filename submitted with the multipart form together with the
`{fileId, fileUrl}` result or the thrown error message.  The response
validations (`Invalid upload response from Strapi`, `No file ID received
from Strapi`) are raised inside the same `try`, so they are wrapped by
`uploadCatch` as in the source. -/
def handlePhotoUpload (session : Session) (ts : Nat) (u : UploadOutcome) :
    String × Except String (Nat × String) :=
  (uploadFilename session.plantName ts,
    match u with
    | UploadOutcome.fetchError e => Except.error e.message
    | UploadOutcome.success fid furl => Except.ok (fid, furl)
    | UploadOutcome.invalidResponse =>
        Except.error (uploadCatch { code := none, message := "Invalid upload response from Strapi" })
    | UploadOutcome.missingId =>
        Except.error (uploadCatch { code := none, message := "No file ID received from Strapi" })
    | UploadOutcome.netError e => Except.error (uploadCatch e))

/-! ## Image classification (`src/helpers/botImages.js` lines 88-175) -/

/-- The `plantDetails` object of the JSON shape requested from the
classifier.  Subfields the code reads optimistically are `Option`s. -/
structure PlantDetails where
  close_up : Bool
  distance_shot : Bool
  type : Option String
  type_confidence : Option String
  health : Option String
  notable_features : Option String
deriving DecidableEq, Repr

/-- A successfully `JSON.parse`d classifier response.  `description` and
`plantDetails` are `Option`s because the code accesses them without
validation (duck-typed parsing). -/
structure ParsedAnalysis where
  isPlant : Bool
  description : Option String
  plantDetails : Option PlantDetails
deriving DecidableEq, Repr

/-- Outcome of the hosted-model exchange inside `analyzeImage`: the call
or the `JSON.parse` raises (with or without `API_KEY_SERVICE_BLOCKED` in
the error message), or a parsed object is obtained. -/
inductive ClassifierOutcome where
  | failure (blocked : Bool)
  | parsed (a : ParsedAnalysis)
deriving DecidableEq, Repr

/-- The value `analyzeImage` returns to `processImage`: `false` for a
confirmed non-plant, `true` for every degraded fallback, or the parsed
analysis object. -/
inductive AnalyzeResult where
  | notPlant
  | degraded
  | plantAnalysis (a : ParsedAnalysis)
deriving DecidableEq, Repr

/-- JavaScript template-literal interpolation of a possibly-undefined
string. -/
def jsStr (o : Option String) : String :=
  match o with
  | some s => s
  | none => "undefined"

/-- JavaScript template-literal interpolation of a boolean. -/
def jsBool (b : Bool) : String :=
  if b then "true" else "false"

/-- The multi-line `session.imageAnalysis` template built for a plant
verdict (`src/helpers/botImages.js` lines 138-143). -/
def plantTemplate (a : ParsedAnalysis) (pd : PlantDetails) : String :=
  jsStr a.description ++ "\n\nType: " ++ jsStr pd.type ++
  "\nHealth: " ++ jsStr pd.health ++
  "\nNotable Features: " ++ jsStr pd.notable_features ++
  "\nClose up: " ++ jsBool pd.close_up ++
  "\nDistance shot: " ++ jsBool pd.distance_shot

/-- `analyzeImage` of `src/helpers/botImages.js` lines 88-175.
`fetchOk` is the outcome of the `axios.get` of the uploaded image (outer
`try`); `c` describes the hosted-model exchange (inner `try`).  When the
parsed object judges a plant but `plantDetails` is absent, the
`analysis.plantDetails.type_confidence` access on line 131 raises a
`TypeError` that the inner `catch` downgrades; the same line runs — and
raises — before the non-plant early return, so a parsed response without
`plantDetails` always takes the degraded branch. -/
def analyzeImage (session : Session) (fetchOk : Bool) (c : ClassifierOutcome) :
    Session × AnalyzeResult :=
  if fetchOk = false then
    ({ session with isPlant := some true, confidence := some "unknown",
                    imageAnalysis := some "Image processing failed" },
     AnalyzeResult.degraded)
  else
    match c with
    | ClassifierOutcome.failure true =>
        ({ session with isPlant := some true, confidence := some "unverified",
                        imageAnalysis := some "AI analysis currently unavailable - image saved" },
         AnalyzeResult.degraded)
    | ClassifierOutcome.failure false =>
        ({ session with isPlant := some true, confidence := some "unknown",
                        imageAnalysis := some "Image analysis failed - please try again later" },
         AnalyzeResult.degraded)
    | ClassifierOutcome.parsed a =>
        match a.plantDetails with
        | none =>
            ({ session with isPlant := some true, confidence := some "unknown",
                            imageAnalysis := some "Image analysis failed - please try again later" },
             AnalyzeResult.degraded)
        | some pd =>
            if a.isPlant = false then
              ({ session with isPlant := some false, confidence := pd.type_confidence,
                              imageAnalysis := a.description },
               AnalyzeResult.notPlant)
            else
              ({ session with isPlant := some true, confidence := pd.type_confidence,
                              imageAnalysis := some (plantTemplate a pd) },
               AnalyzeResult.plantAnalysis a)

/-- `analysis.plantDetails?.close_up` truthiness on the value returned by
`analyzeImage` (`src/helpers/botImages.js` line 68): only the parsed
analysis object carries `plantDetails`. -/
def resCloseUp (r : AnalyzeResult) : Bool :=
  match r with
  | AnalyzeResult.plantAnalysis a =>
      match a.plantDetails with
      | some pd => pd.close_up
      | none => false
  | _ => false

/-- `analysis.plantDetails?.distance_shot` truthiness
(`src/helpers/botImages.js` line 73). -/
def resDistance (r : AnalyzeResult) : Bool :=
  match r with
  | AnalyzeResult.plantAnalysis a =>
      match a.plantDetails with
      | some pd => pd.distance_shot
      | none => false
  | _ => false

/-- `analysis.description` as read by the close-up branch
(`src/helpers/botImages.js` line 70). -/
def resDescription (r : AnalyzeResult) : Option String :=
  match r with
  | AnalyzeResult.plantAnalysis a => a.description
  | _ => none

/-! ## Persistence routine (`src/unnamed/part_001` lines 23-56, 219-242) -/

/-- The argument object `handleLocation` passes to `saveToStrapi`
(`src/unnamed/part_001` lines 228-241). -/
structure SaveData where
  plantName : Option String
  closeImageId : Option Nat
  locationImageId : Option Nat
  imageAnalysis : Option String
  latitude : Int
  longitude : Int
  phoneNumber : Option String
  userId : Option Nat
  isNewPlanting : Bool
  isPlant : Option Bool
  confidence : Option String
deriving DecidableEq, Repr

/-- The record POSTed to `/api/location-trackings`
(`src/unnamed/part_001` lines 25-44). -/
structure StrapiPayload where
  label : Option String
  plant_image : Option Nat
  location_image : Option Nat
  analysis : Option String
  latitude : Int
  longitude : Int
  last_verified : String
  phone_number : Option String
  user : Option Nat
  is_plant : Option Bool
  confidence : Option String
  planted_date : Option String
deriving DecidableEq, Repr

/-- Payload construction inside `saveToStrapi` (`src/unnamed/part_001`
lines 25-44): `last_verified` is stamped with the current time, and
`planted_date` is added only when `isNewPlanting` is true.  `now` is the
`new Date().toISOString()` value at call time. -/
def buildStrapiPayload (d : SaveData) (now : String) : StrapiPayload :=
  { label := d.plantName
    plant_image := d.closeImageId
    location_image := d.locationImageId
    analysis := d.imageAnalysis
    latitude := d.latitude
    longitude := d.longitude
    last_verified := now
    phone_number := d.phoneNumber
    user := d.userId
    is_plant := d.isPlant
    confidence := d.confidence
    planted_date := if d.isNewPlanting then some now else none }

/-- `saveToStrapi` (`src/unnamed/part_001` lines 23-56).  `post` is the
outcome of the `client.post` call (`none` = success).  Returns the payload
that was submitted together with the result: on failure the raw error is
replaced by the maintenance message for connection-class errors and by the
generic database error otherwise. -/
def saveToStrapi (d : SaveData) (now : String) (post : Option JsError) :
    StrapiPayload × Except String Unit :=
  (buildStrapiPayload d now,
    match post with
    | none => Except.ok ()
    | some e =>
        Except.error (if isConnectionError e then MAINTENANCE_MESSAGE
                      else "Failed to save plant data to database"))

/-- Result of one `handleLocation` call: the session after the call, the
payload submitted to the content store if the `saveToStrapi` POST was
reached, and the error thrown out of `handleLocation`, if any. -/
structure LocOutcome where
  session : Session
  saveAttempted : Option StrapiPayload
  error : Option String
deriving DecidableEq, Repr

/-- `handleLocation` (`src/unnamed/part_001` lines 219-242; the
`src/helpers/botHelpers.js` lines 300-319 variant has the same control
flow).  The location is written into the session first; then a missing
`userId` raises `No user ID found in session` before any persist call;
otherwise `saveToStrapi` is invoked on the session's accumulated
fields. -/
def handleLocation (loc : Coord) (session : Session) (post : Option JsError)
    (now : String) : LocOutcome :=
  let s1 := { session with location := some loc }
  match s1.userId with
  | none => { session := s1, saveAttempted := none, error := some "No user ID found in session" }
  | some uid =>
      let r := saveToStrapi
        { plantName := s1.plantName
          closeImageId := s1.closeImageId
          locationImageId := s1.locationImageId
          imageAnalysis := s1.imageAnalysis
          latitude := loc.latitude
          longitude := loc.longitude
          phoneNumber := s1.phoneNumber
          userId := some uid
          isNewPlanting := s1.isNewPlanting
          isPlant := s1.isPlant
          confidence := s1.confidence } now post
      match r.2 with
      | Except.ok _ => { session := s1, saveAttempted := some r.1, error := none }
      | Except.error m => { session := s1, saveAttempted := some r.1, error := some m }

/-! ## `processImage` (`src/helpers/botImages.js` lines 64-85) -/

/-- A user record of the remote content store as consumed by the handlers
(`existingUser.id`, `existingUser.username`, `existingUser.phoneNumber`).
Store records carry a numeric identifier. -/
structure UserRec where
  id : Nat
  username : Option String
  phoneNumber : Option String
deriving DecidableEq, Repr

/-- The per-step description of every external collaborator response the
message handler may consume: the `findUserByPhone` lookup (`Except.error`
= the lookup threw), the upload exchange, `Date.now()`, the fetch of the
uploaded image, the classifier exchange, the content-store POST outcome
and the `toISOString` timestamp. -/
structure MsgOracle where
  phoneLookup : Except Unit (Option UserRec)
  upload : UploadOutcome
  ts : Nat
  fetchOk : Bool
  classifier : ClassifierOutcome
  post : Option JsError
  now : String

/-- `processImage` (`src/helpers/botImages.js` lines 64-85): upload the
photo, classify it, then record a close-up (overwriting `imageAnalysis`
with the raw description), record or stage a distance shot, or reject the
image.  An upload failure propagates (`Except.error`) with the session
untouched; `analyzeImage` never raises. -/
def processImage (session : Session) (o : MsgOracle) : Session × Except String Unit :=
  match (handlePhotoUpload session o.ts o.upload).2 with
  | Except.error e => (session, Except.error e)
  | Except.ok (fid, _furl) =>
      let pr := analyzeImage session o.fetchOk o.classifier
      let s1 := pr.1
      let res := pr.2
      if resCloseUp res && (s1.isPlant == some true) then
        ({ s1 with closeImageId := some fid, imageAnalysis := resDescription res },
         Except.ok ())
      else if resDistance res && (s1.isPlant == some true) then
        if s1.locationImageId.isSome then
          ({ s1 with pendingLocationImageId := some fid }, Except.ok ())
        else
          ({ s1 with locationImageId := some fid }, Except.ok ())
      else
        (s1, Except.ok ())

/-! ## The inbound-message handler (`src/bot.js` lines 235-359) -/

/-- An inbound Telegram message as the handler inspects it: optional
`text`, a photo flag, optional `location`, optional `contact`. -/
structure Msg where
  chatId : Nat
  text : Option String
  photo : Bool
  location : Option Coord
  contact : Option String
deriving DecidableEq, Repr

/-- JavaScript truthiness of the condition
`!msg.text || !msg.text.startsWith('/')` guarding the IDLE command-menu
short circuit (`src/bot.js` line 277). -/
def textNotCommand (t : Option String) : Bool :=
  match t with
  | none => true
  | some s => if s = "" then true else !(s.startsWith "/")

/-- JavaScript truthiness of `msg.text` in the plant-name branch
(`src/bot.js` line 325). -/
def textTruthy (t : Option String) : Bool :=
  match t with
  | none => false
  | some s => !(s == "")

/-- The `/replace`-`/keep` interception active while
`pendingLocationImageId` is set (`src/bot.js` lines 247-259): `/replace`
promotes the pending file id to `locationImageId` and clears the slot,
`/keep` clears the slot, anything else falls through to the unconditional
`return` with the session untouched. -/
def pendingStep (msg : Msg) (session : Session) : Session :=
  if msg.text = some "/replace" then
    { session with locationImageId := session.pendingLocationImageId,
                   pendingLocationImageId := none }
  else if msg.text = some "/keep" then
    { session with pendingLocationImageId := none }
  else
    session

/-- The photo-processing prefix of the `try` block (`src/bot.js`
lines 263-274): run `processImage` on any photo, then re-prompt for the
plant name when still waiting for it, or auto-advance to
`WAITING_FOR_LOCATION` once both image ids are present.  The boolean is
false when `processImage` threw (the outer catch then answers and the
step ends). -/
def photoPhase (msg : Msg) (o : MsgOracle) (session : Session) : Session × Bool :=
  if msg.photo then
    match processImage session o with
    | (s1, Except.error _) => (s1, false)
    | (s1, Except.ok _) =>
        if s1.state = BotState.WAITING_FOR_PLANT_NAME then (s1, true)
        else if s1.state = BotState.WAITING_FOR_IMAGE ∧ s1.closeImageId.isSome ∧
                s1.locationImageId.isSome then
          ({ s1 with state := BotState.WAITING_FOR_LOCATION }, true)
        else (s1, true)
  else (session, true)

/-- The `switch (session.state)` statement (`src/bot.js` lines 282-354).
Returns the session after the step and the payload submitted to the
content store when a persist call was reached.  The `IDLE` arm resolves a
shared contact against the remote store; the plant-name arm stores the
text and advances; the image arm advances only when `imageReceived` is
set (never, in this variant); the location arm runs `handleLocation`
followed by the summary (which does not mutate the session). -/
def switchOn (msg : Msg) (o : MsgOracle) (session : Session) :
    BotState → Session × Option StrapiPayload
  | BotState.IDLE =>
      match msg.contact with
      | none => (session, none)
      | some rawPhone =>
          let phone := if rawPhone.startsWith "+" then rawPhone else "+" ++ rawPhone
          match o.phoneLookup with
          | Except.error _ => ({ session with state := BotState.IDLE }, none)
          | Except.ok none => ({ session with state := BotState.IDLE }, none)
          | Except.ok (some u) =>
              ({ session with phoneNumber := some phone, userId := some u.id,
                              username := u.username,
                              state := BotState.WAITING_FOR_PLANT_NAME }, none)
  | BotState.WAITING_FOR_PLANT_NAME =>
      match msg.text with
      | none => (session, none)
      | some t =>
          if textTruthy (some t) && !(t == "/start") && !(t == "/cancel") then
            let s3 := { session with plantName := some t, state := BotState.WAITING_FOR_IMAGE }
            if s3.imageReceived then
              ({ s3 with state := BotState.WAITING_FOR_LOCATION }, none)
            else (s3, none)
          else (session, none)
  | BotState.WAITING_FOR_IMAGE =>
      if session.imageReceived then
        ({ session with state := BotState.WAITING_FOR_LOCATION }, none)
      else (session, none)
  | BotState.WAITING_FOR_LOCATION =>
      match msg.location with
      | some loc =>
          let r := handleLocation loc session o.post o.now
          (r.session, r.saveAttempted)
      | none => (session, none)
  | BotState.WAITING_FOR_PHONE => (session, none)

/-- The `switch (session.state)` dispatch: the state is read once on
entry, as in the JavaScript `switch`. -/
def switchPhase (msg : Msg) (o : MsgOracle) (session : Session) :
    Session × Option StrapiPayload :=
  switchOn msg o session session.state

/-- The remainder of the `try` block after the photo phase: when the
photo phase threw, the outer catch ends the step; otherwise the IDLE
command-menu short circuit (`src/bot.js` lines 277-280) may end the step
before the state switch runs. -/
def postPhoto (msg : Msg) (o : MsgOracle) : Session × Bool → Session × Option StrapiPayload
  | (s2, false) => (s2, none)
  | (s2, true) =>
      if s2.state = BotState.IDLE ∧ textNotCommand msg.text then (s2, none)
      else switchPhase msg o s2

/-- One run of `bot.on('message')` (`src/bot.js` lines 235-359) on the
session of the message's chat: the `/cancel` branch calls `initSession`
(which returns the existing session unchanged) and returns; while a
pending location image awaits a decision every message is intercepted;
otherwise the photo phase, the IDLE command-menu short circuit and the
state switch run inside the `try`, whose catch leaves the session in its
partially-mutated state. -/
def messageStep (msg : Msg) (o : MsgOracle) (session : Session) :
    Session × Option StrapiPayload :=
  if msg.text = some "/cancel" then
    (session, none)
  else if session.pendingLocationImageId.isSome then
    (pendingStep msg session, none)
  else
    postPhoto msg o (photoPhase msg o session)

/-! ## Session store and `initSession`
(`src/unnamed/part_001` lines 59-83, `src/helpers/botHelpers.js`
lines 92-115) -/

/-- The in-memory `userSessions` map, keyed by chat id.  A JavaScript
`Map` keeps at most one entry per key; insertion order is preserved and
`set` on an existing key replaces in place. -/
abbrev Store := List (Nat × Session)

/-- `userSessions.get(chatId)` (also covering `userSessions.has`). -/
def storeGet : Store → Nat → Option Session
  | [], _ => none
  | (k, v) :: rest, cid => if k = cid then some v else storeGet rest cid

/-- `userSessions.set(chatId, session)`: replace in place, or append. -/
def storeSet : Store → Nat → Session → Store
  | [], cid, s => [(cid, s)]
  | (k, v) :: rest, cid, s =>
      if k = cid then (cid, s) :: rest else (k, v) :: storeSet rest cid s

/-- The keys of the store, in order. -/
def storeKeys (st : Store) : List Nat :=
  st.map Prod.fst

/-- How many entries the store holds for a chat id. -/
def countKey (st : Store) (cid : Nat) : Nat :=
  st.countP (fun p => p.1 = cid)

/-- `initSession` (`src/unnamed/part_001` lines 59-83, identical control
flow in `src/helpers/botHelpers.js` lines 92-115): when a session already
exists for the chat id it is returned unchanged and nothing is stored;
otherwise a fresh `IDLE` session is created and stored. -/
def initSession (cid : Nat) (st : Store) : Session × Store :=
  match storeGet st cid with
  | some s => (s, st)
  | none => (initialSession, storeSet st cid initialSession)

/-! ## Events and reachability -/

/-- One externally-triggered handler run: an inbound message
(`bot.on('message')`), the `/newplanting` and `/addplant` command handlers
(`src/bot.js` lines 178-232) with the outcome of their `findUserByChatId`
lookup, the `/cancel` `onText` handler (`src/bot.js` lines 423-427) and
the `add_plant` callback query (`src/bot.js` lines 361-376). -/
inductive Event where
  | message (msg : Msg) (o : MsgOracle)
  | newplanting (cid : Nat) (lookup : Except Unit (Option UserRec))
  | addplant (cid : Nat) (lookup : Except Unit (Option UserRec))
  | cancelCmd (cid : Nat)
  | callbackAddPlant (cid : Nat)

/-- The shared body of the `/newplanting` and `/addplant` handlers after
`isNewPlanting` is set (`src/bot.js` lines 186-205 and 214-231): on a
successful lookup the identity fields are populated and `askForPlantName`
sets the state; a missing user or a thrown lookup leaves the rest of the
session untouched (the catch only answers the user). -/
def commandLookup (lookup : Except Unit (Option UserRec)) (s : Session) : Session :=
  match lookup with
  | Except.ok (some u) =>
      { s with phoneNumber := u.phoneNumber, userId := some u.id,
               username := u.username, state := BotState.WAITING_FOR_PLANT_NAME }
  | _ => s

/-- Apply one handler run to the store.  Every handler begins with
`initSession` (insert-if-absent), then mutates the session it obtained in
place — modelled by writing the mutated session back. -/
def applyEvent (st : Store) : Event → Store
  | Event.message msg o =>
      let p := initSession msg.chatId st
      storeSet p.2 msg.chatId (messageStep msg o p.1).1
  | Event.newplanting cid lookup =>
      let p := initSession cid st
      storeSet p.2 cid (commandLookup lookup { p.1 with isNewPlanting := true })
  | Event.addplant cid lookup =>
      let p := initSession cid st
      storeSet p.2 cid (commandLookup lookup { p.1 with isNewPlanting := false })
  | Event.cancelCmd cid => (initSession cid st).2
  | Event.callbackAddPlant cid => (initSession cid st).2

/-- Run a sequence of handler events from a store. -/
def runEvents (st : Store) (evs : List Event) : Store :=
  evs.foldl applyEvent st

/-- The stores reachable from process start (empty session map) by any
sequence of handler runs. -/
inductive Reachable : Store → Prop where
  | init : Reachable []
  | step (st : Store) (e : Event) : Reachable st → Reachable (applyEvent st e)

/-! ## State-ordering invariant -/

/-- The ordering invariant of one session: once the machine has passed
identity resolution the user id is known, and once it is collecting
images or the location a plant name has been stored. -/
def SessInv (s : Session) : Prop :=
  (s.state = BotState.WAITING_FOR_PLANT_NAME → s.userId.isSome) ∧
  (s.state = BotState.WAITING_FOR_IMAGE → s.userId.isSome ∧ s.plantName.isSome) ∧
  (s.state = BotState.WAITING_FOR_LOCATION → s.userId.isSome ∧ s.plantName.isSome)

/-- Every stored session satisfies the ordering invariant. -/
def StoreInv (st : Store) : Prop :=
  ∀ cid s, storeGet st cid = some s → SessInv s

lemma sessInv_initial : SessInv initialSession := by
  refine ⟨?_, ?_, ?_⟩ <;> intro h <;> simp [initialSession] at h

lemma sessInv_congr {s s' : Session} (hst : s'.state = s.state)
    (hpn : s'.plantName = s.plantName) (hid : s'.userId = s.userId)
    (h : SessInv s) : SessInv s' := by
  obtain ⟨h1, h2, h3⟩ := h
  refine ⟨?_, ?_, ?_⟩
  · rw [hst, hid]
    exact h1
  · rw [hst, hid, hpn]
    exact h2
  · rw [hst, hid, hpn]
    exact h3

lemma analyzeImage_core (s : Session) (f : Bool) (c : ClassifierOutcome) :
    (analyzeImage s f c).1.state = s.state ∧
    (analyzeImage s f c).1.plantName = s.plantName ∧
    (analyzeImage s f c).1.userId = s.userId ∧
    (analyzeImage s f c).1.imageReceived = s.imageReceived := by
  rcases c with b | a
  · cases f <;> cases b <;> simp [analyzeImage]
  · rcases ha : a.plantDetails with _ | pd
    · cases f <;> simp [analyzeImage, ha]
    · cases f <;> rcases hp : a.isPlant <;> simp [analyzeImage, ha, hp]

lemma processImage_core (s : Session) (o : MsgOracle) :
    (processImage s o).1.state = s.state ∧
    (processImage s o).1.plantName = s.plantName ∧
    (processImage s o).1.userId = s.userId ∧
    (processImage s o).1.imageReceived = s.imageReceived := by
  have hc := analyzeImage_core s o.fetchOk o.classifier
  unfold processImage
  rcases h : (handlePhotoUpload s o.ts o.upload).2 with e | ⟨fid, furl⟩ <;>
    simp only [h]
  · simp
  · obtain ⟨h1, h2, h3, h4⟩ := hc
    split
    · simpa using ⟨h1, h2, h3, h4⟩
    · split
      · split <;> simpa using ⟨h1, h2, h3, h4⟩
      · simpa using ⟨h1, h2, h3, h4⟩

lemma handleLocation_session (loc : Coord) (s : Session) (post : Option JsError)
    (now : String) :
    (handleLocation loc s post now).session = { s with location := some loc } := by
  unfold handleLocation
  rcases h : s.userId with _ | uid
  · simp [h]
  · simp only [h]
    split <;> rfl

lemma pendingStep_core (msg : Msg) (s : Session) :
    (pendingStep msg s).state = s.state ∧
    (pendingStep msg s).plantName = s.plantName ∧
    (pendingStep msg s).userId = s.userId := by
  unfold pendingStep
  split
  · exact ⟨rfl, rfl, rfl⟩
  · split <;> exact ⟨rfl, rfl, rfl⟩

lemma photoPhase_inv (msg : Msg) (o : MsgOracle) (s : Session) (h : SessInv s) :
    SessInv (photoPhase msg o s).1 := by
  unfold photoPhase
  split
  · have hc := processImage_core s o
    rcases hp : processImage s o with ⟨s1, r⟩
    rw [hp] at hc
    obtain ⟨h1, h2, h3, _⟩ := hc
    have hs1 : SessInv s1 := sessInv_congr h1 h2 h3 h
    rcases r with e | u
    · simpa using hs1
    · simp only []
      split
      · simpa using hs1
      · split
        · rename_i hcond
          obtain ⟨hwfi, _, _⟩ := hcond
          rw [h1] at hwfi
          obtain ⟨_, hui, hpn⟩ := h
          have := hui hwfi
          refine ⟨?_, ?_, ?_⟩ <;> intro hst <;> simp_all

        · simpa using hs1
  · exact h

lemma switchPhase_inv (msg : Msg) (o : MsgOracle) (s : Session) (h : SessInv s) :
    SessInv (switchPhase msg o s).1 := by
  obtain ⟨h1, h2, h3⟩ := h
  unfold switchPhase
  rcases hs : s.state
  all_goals simp only [hs, switchOn]
  · rcases msg.contact with _ | rawPhone
    · exact ⟨h1, h2, h3⟩
    · rcases o.phoneLookup with _ | u
      · refine ⟨?_, ?_, ?_⟩ <;> intro hst <;> simp_all
      · rcases u with _ | u
        · refine ⟨?_, ?_, ?_⟩ <;> intro hst <;> simp_all
        · refine ⟨?_, ?_, ?_⟩ <;> intro hst <;> simp_all
  · rcases msg.text with _ | t
    · exact ⟨h1, h2, h3⟩
    · simp only []
      split
      · have hid : s.userId.isSome := h1 hs
        split
        · refine ⟨?_, ?_, ?_⟩ <;> intro hst <;> simp_all
        · refine ⟨?_, ?_, ?_⟩ <;> intro hst <;> simp_all
      · exact ⟨h1, h2, h3⟩
  · split
    · have := h2 hs
      refine ⟨?_, ?_, ?_⟩ <;> intro hst <;> simp_all
    · exact ⟨h1, h2, h3⟩
  · rcases msg.location with _ | loc
    · exact ⟨h1, h2, h3⟩
    · simp only []
      rw [handleLocation_session]
      have := h3 hs
      refine ⟨?_, ?_, ?_⟩ <;> intro hst <;> simp_all
  · exact ⟨h1, h2, h3⟩

lemma postPhoto_inv (msg : Msg) (o : MsgOracle) (p : Session × Bool)
    (h : SessInv p.1) : SessInv (postPhoto msg o p).1 := by
  rcases p with ⟨s2, ok⟩
  rcases ok
  · simpa [postPhoto] using h
  · simp only [postPhoto]
    split
    · simpa using h
    · exact switchPhase_inv msg o s2 h

lemma messageStep_inv (msg : Msg) (o : MsgOracle) (s : Session) (h : SessInv s) :
    SessInv (messageStep msg o s).1 := by
  unfold messageStep
  split
  · exact h
  · split
    · have hc := pendingStep_core msg s
      exact sessInv_congr hc.1 hc.2.1 hc.2.2 h
    · exact postPhoto_inv msg o _ (photoPhase_inv msg o s h)

lemma storeGet_storeSet_self (st : Store) (cid : Nat) (v : Session) :
    storeGet (storeSet st cid v) cid = some v := by
  induction st with
  | nil => simp [storeSet, storeGet]
  | cons p rest ih =>
      rcases p with ⟨k, w⟩
      by_cases hk : k = cid <;> simp [storeSet, storeGet, hk, ih]

lemma storeGet_storeSet_ne (st : Store) (cid cid' : Nat) (v : Session)
    (h : cid' ≠ cid) :
    storeGet (storeSet st cid v) cid' = storeGet st cid' := by
  have hne : ¬cid = cid' := fun hh => h hh.symm
  induction st with
  | nil => simp [storeSet, storeGet, hne]
  | cons p rest ih =>
      rcases p with ⟨k, w⟩
      by_cases hk : k = cid
      · subst hk
        simp [storeSet, storeGet, hne]
      · by_cases hk2 : k = cid' <;> simp [storeSet, storeGet, hk, hk2, ih, h]

lemma storeInv_set {st : Store} {cid : Nat} {v : Session}
    (h : StoreInv st) (hv : SessInv v) : StoreInv (storeSet st cid v) := by
  intro c s hc
  by_cases hcc : c = cid
  · subst hcc
    rw [storeGet_storeSet_self] at hc
    cases hc
    exact hv
  · rw [storeGet_storeSet_ne _ _ _ _ hcc] at hc
    exact h c s hc

lemma initSession_inv {st : Store} (cid : Nat) (h : StoreInv st) :
    SessInv (initSession cid st).1 ∧ StoreInv (initSession cid st).2 := by
  unfold initSession
  rcases hg : storeGet st cid with _ | s
  · exact ⟨sessInv_initial, storeInv_set h sessInv_initial⟩
  · exact ⟨h cid s hg, h⟩

lemma commandLookup_inv (lookup : Except Unit (Option UserRec)) (b : Bool)
    (s : Session) (h : SessInv s) :
    SessInv (commandLookup lookup { s with isNewPlanting := b }) := by
  rcases lookup with _ | u
  · exact sessInv_congr rfl rfl rfl h
  · rcases u with _ | u
    · exact sessInv_congr rfl rfl rfl h
    · refine ⟨?_, ?_, ?_⟩ <;> intro hst <;> simp_all [commandLookup]

lemma applyEvent_inv (st : Store) (e : Event) (h : StoreInv st) :
    StoreInv (applyEvent st e) := by
  rcases e with ⟨msg, o⟩ | ⟨cid, lk⟩ | ⟨cid, lk⟩ | cid | cid
  · obtain ⟨hs, hst⟩ := initSession_inv msg.chatId h
    exact storeInv_set hst (messageStep_inv msg o _ hs)
  · obtain ⟨hs, hst⟩ := initSession_inv cid h
    exact storeInv_set hst (commandLookup_inv lk true _ hs)
  · obtain ⟨hs, hst⟩ := initSession_inv cid h
    exact storeInv_set hst (commandLookup_inv lk false _ hs)
  · exact (initSession_inv cid h).2
  · exact (initSession_inv cid h).2

/-- Every reachable store satisfies the state-ordering invariant: a
session in `WAITING_FOR_PLANT_NAME` has a resolved user id, and a session
in `WAITING_FOR_IMAGE` or `WAITING_FOR_LOCATION` additionally has a plant
name. -/
lemma reachable_inv {st : Store} (h : Reachable st) : StoreInv st := by
  induction h with
  | init => intro cid s hc; simp [storeGet] at hc
  | step st e _ ih => exact applyEvent_inv st e ih

/-! ## Characterisation of the persist call inside one message step -/

lemma handleLocation_attempted (loc : Coord) (s : Session) (post : Option JsError)
    (now : String) (h : s.userId.isSome) :
    (handleLocation loc s post now).saveAttempted.isSome := by
  obtain ⟨uid, hu⟩ := Option.isSome_iff_exists.mp h
  unfold handleLocation
  simp only [hu]
  split <;> simp

/-- A message step reaches the persist call only through the
`WAITING_FOR_LOCATION` arm of the switch on a location share. -/
lemma messageStep_save (msg : Msg) (o : MsgOracle) (s : Session)
    (h : (messageStep msg o s).2.isSome) :
    ∃ s2 loc, photoPhase msg o s = (s2, true) ∧
      s2.state = BotState.WAITING_FOR_LOCATION ∧
      msg.location = some loc ∧
      messageStep msg o s =
        ((handleLocation loc s2 o.post o.now).session,
         (handleLocation loc s2 o.post o.now).saveAttempted) := by
  by_cases hcancel : msg.text = some "/cancel"
  · unfold messageStep at h
    rw [if_pos hcancel] at h
    simp at h
  · by_cases hpend : s.pendingLocationImageId.isSome
    · unfold messageStep at h
      rw [if_neg hcancel, if_pos hpend] at h
      simp at h
    · have hms : messageStep msg o s = postPhoto msg o (photoPhase msg o s) := by
        unfold messageStep
        rw [if_neg hcancel, if_neg hpend]
      rcases hp : photoPhase msg o s with ⟨s2, ok⟩
      rw [hp] at hms
      rcases ok
      · rw [hms] at h
        simp [postPhoto] at h
      · rw [hms] at h
        simp only [postPhoto] at h
        by_cases hidle : s2.state = BotState.IDLE ∧ textNotCommand msg.text
        · rw [if_pos hidle] at h
          simp at h
        · rw [if_neg hidle] at h
          unfold switchPhase at h
          rcases hs : s2.state
          all_goals rw [hs] at h
          all_goals simp only [switchOn] at h
          · split at h
            · simp at h
            · split at h <;> simp at h
          · split at h
            · simp at h
            · split at h
              · split at h <;> simp at h
              · simp at h
          · split at h <;> simp at h
          · split at h
            · rename_i loc heq
              refine ⟨s2, loc, rfl, hs, heq, ?_⟩
              rw [hms]
              simp only [postPhoto]
              rw [if_neg hidle]
              unfold switchPhase
              rw [hs]
              simp only [switchOn, heq]
            · simp at h
          · simp at h

/-- If the photo phase ends in `WAITING_FOR_LOCATION` starting from a
session satisfying the ordering invariant, the resulting session carries
a plant name and a user id. -/
lemma photoPhase_plantName (msg : Msg) (o : MsgOracle) (s s2 : Session) (ok : Bool)
    (h : photoPhase msg o s = (s2, ok)) (hinv : SessInv s)
    (hs2 : s2.state = BotState.WAITING_FOR_LOCATION) :
    s2.plantName.isSome ∧ s2.userId.isSome := by
  obtain ⟨h1, h2, h3⟩ := hinv
  unfold photoPhase at h
  split at h
  · have hc := processImage_core s o
    rcases hpi : processImage s o with ⟨s1, r⟩
    rw [hpi] at h hc
    obtain ⟨hst, hpn, hid, _⟩ := hc
    rcases r with e | u
    · simp only [] at h
      cases h
      rw [hst] at hs2
      obtain ⟨hu, hp⟩ := h3 hs2
      rw [hpn, hid]
      exact ⟨hp, hu⟩
    · simp only [] at h
      split at h
      · cases h
        rename_i hwf
        rw [hwf] at hs2
        cases hs2
      · split at h
        · cases h
          rename_i hcond
          obtain ⟨hwfi, _, _⟩ := hcond
          rw [hst] at hwfi
          obtain ⟨hu, hp⟩ := h2 hwfi
          simp only []
          rw [hpn, hid]
          exact ⟨hp, hu⟩
        · cases h
          rw [hst] at hs2
          obtain ⟨hu, hp⟩ := h3 hs2
          rw [hpn, hid]
          exact ⟨hp, hu⟩
  · cases h
    obtain ⟨hu, hp⟩ := h3 hs2
    exact ⟨hp, hu⟩

/-! ## Claims -/

/-- Claim C3 (exhibit of the divergence): when the classifier call fails
with an `API_KEY_SERVICE_BLOCKED` error, the degraded verdict is written
into the session exactly as claimed (`isPlant = true`,
`confidence = "unverified"`,
`imageAnalysis = "AI analysis currently unavailable - image saved"`) and
nothing raises — but `analyzeImage` returns the bare `true`, whose
`plantDetails?.close_up` and `?.distance_shot` reads are undefined, so
`processImage` falls into the rejection branch
(`src/helpers/botImages.js` lines 82-84): the photo is answered with
`does not qualify ... try again`, and `closeImageId`, `locationImageId`
and `pendingLocationImageId` are all left untouched.  No image reference
is ever recorded while the key is blocked, so the workflow is in fact
blocked at image collection, contradicting the claim, the session text
`image saved` the code itself writes, and the log line
`continuing without analysis`. -/
theorem analyzeImage_blocked_rejects_photo (s : Session) (fid ts : Nat)
    (furl now : String) (lk : Except Unit (Option UserRec)) (post : Option JsError) :
    (analyzeImage s true (ClassifierOutcome.failure true)).1.isPlant = some true ∧
    (analyzeImage s true (ClassifierOutcome.failure true)).1.confidence = some "unverified" ∧
    (analyzeImage s true (ClassifierOutcome.failure true)).1.imageAnalysis =
      some "AI analysis currently unavailable - image saved" ∧
    (analyzeImage s true (ClassifierOutcome.failure true)).2 = AnalyzeResult.degraded ∧
    (processImage s
      { phoneLookup := lk, upload := UploadOutcome.success fid furl, ts := ts,
        fetchOk := true, classifier := ClassifierOutcome.failure true,
        post := post, now := now }).2 = Except.ok () ∧
    (processImage s
      { phoneLookup := lk, upload := UploadOutcome.success fid furl, ts := ts,
        fetchOk := true, classifier := ClassifierOutcome.failure true,
        post := post, now := now }).1.closeImageId = s.closeImageId ∧
    (processImage s
      { phoneLookup := lk, upload := UploadOutcome.success fid furl, ts := ts,
        fetchOk := true, classifier := ClassifierOutcome.failure true,
        post := post, now := now }).1.locationImageId = s.locationImageId ∧
    (processImage s
      { phoneLookup := lk, upload := UploadOutcome.success fid furl, ts := ts,
        fetchOk := true, classifier := ClassifierOutcome.failure true,
        post := post, now := now }).1.pendingLocationImageId = s.pendingLocationImageId :=
  ⟨rfl, rfl, rfl, rfl, rfl, rfl, rfl, rfl⟩

/-- Claim C5, counterexample: the claim asserts a non-null
`imageAnalysis` after `analyzeImage` returns for every classifier
outcome, but a response that parses with `isPlant: false`, a present
`plantDetails` object and a missing `description` makes line 134 of
`src/helpers/botImages.js` assign the undefined description, leaving
`imageAnalysis` null even when it previously held text. -/
theorem analyzeImage_null_analysis_counterexample :
    (analyzeImage { initialSession with imageAnalysis := some "previous text" } true
      (ClassifierOutcome.parsed
        { isPlant := false, description := none,
          plantDetails := some
            { close_up := false, distance_shot := false, type := none,
              type_confidence := none, health := none,
              notable_features := none } })).1.imageAnalysis = none := rfl

/-- The single shape of classifier outcome on which `analyzeImage` leaves
`imageAnalysis` undefined: the image fetch succeeded and the response
parsed to a non-plant verdict carrying `plantDetails` but no
`description`. -/
def notPlantNoDescription (fetchOk : Bool) (c : ClassifierOutcome) : Bool :=
  match fetchOk, c with
  | true, ClassifierOutcome.parsed a =>
      !a.isPlant && a.plantDetails.isSome && a.description.isNone
  | _, _ => false

/-- Claim C5, amended: `analyzeImage` is total (every failure of the
fetch, of the remote call, of `JSON.parse` or of the optimistic field
accesses is caught and downgraded) and always records a boolean
`isPlant`; `imageAnalysis` is a non-null string in every case except the
one exhibited by the counterexample — a parse-succeeding non-plant
response with `plantDetails` present and `description` absent. -/
theorem analyzeImage_total_fields (s : Session) (f : Bool) (c : ClassifierOutcome) :
    (analyzeImage s f c).1.isPlant.isSome ∧
    (notPlantNoDescription f c = false → (analyzeImage s f c).1.imageAnalysis.isSome) := by
  rcases c with b | a
  · cases f <;> cases b <;> simp [analyzeImage]
  · rcases ha : a.plantDetails with _ | pd
    · cases f <;> simp [analyzeImage, ha]
    · cases f <;> rcases hp : a.isPlant <;>
        rcases hd : a.description with _ | d <;>
        simp [analyzeImage, notPlantNoDescription, ha, hp, hd]

/-- Claim C5, amended, witness: a plain remote failure still yields a
defined verdict and analysis text. -/
theorem analyzeImage_total_fields_witness :
    (analyzeImage initialSession true (ClassifierOutcome.failure false)).1.isPlant.isSome ∧
    (analyzeImage initialSession true (ClassifierOutcome.failure false)).1.imageAnalysis.isSome :=
  ⟨(analyzeImage_total_fields initialSession true (ClassifierOutcome.failure false)).1,
   (analyzeImage_total_fields initialSession true (ClassifierOutcome.failure false)).2 rfl⟩

/-- Claim C6: the record built by the persistence routine carries the
plant label, close-up and location image references, analysis text,
latitude and longitude, the server-stamped verification timestamp, phone
number, linked user identity, plant/non-plant flag and confidence label,
and the planting-date field is stamped exactly when `isNewPlanting` is
true. -/
theorem handleLocation_builds_full_record (s : Session) (loc : Coord)
    (post : Option JsError) (now : String) (uid : Nat)
    (h : s.userId = some uid) :
    (handleLocation loc s post now).saveAttempted =
      some { label := s.plantName
             plant_image := s.closeImageId
             location_image := s.locationImageId
             analysis := s.imageAnalysis
             latitude := loc.latitude
             longitude := loc.longitude
             last_verified := now
             phone_number := s.phoneNumber
             user := some uid
             is_plant := s.isPlant
             confidence := s.confidence
             planted_date := if s.isNewPlanting then some now else none } ∧
    ∀ (d : SaveData) (t : String),
      (buildStrapiPayload d t).planted_date.isSome = d.isNewPlanting := by
  constructor
  · unfold handleLocation
    simp only [h]
    split <;> rfl
  · intro d t
    unfold buildStrapiPayload
    rcases d.isNewPlanting <;> simp

/-- Claim C6, witness. -/
theorem handleLocation_builds_full_record_witness :
    (handleLocation { latitude := 37, longitude := -122 }
        { initialSession with userId := some 7, plantName := some "Fern" }
        none "T1").saveAttempted =
      some { label := some "Fern"
             plant_image := none
             location_image := none
             analysis := none
             latitude := 37
             longitude := -122
             last_verified := "T1"
             phone_number := none
             user := some 7
             is_plant := none
             confidence := none
             planted_date := none } :=
  (handleLocation_builds_full_record
    { initialSession with userId := some 7, plantName := some "Fern" }
    { latitude := 37, longitude := -122 } none "T1" 7 rfl).1

/-- Claim C7: a failing persist call surfaces the fixed maintenance
message exactly when the underlying error is connection-class
(`ECONNREFUSED`, `ECONNRESET`, `ETIMEDOUT`, or a message containing
`connect`), and the generic database error in every other case; the
surfaced message is always one of these two fixed strings, never the raw
error. -/
theorem saveToStrapi_error_classification (d : SaveData) (now : String) (e : JsError) :
    ((saveToStrapi d now (some e)).2 = Except.error MAINTENANCE_MESSAGE ↔
      (e.code = some "ECONNREFUSED" ∨ e.code = some "ECONNRESET" ∨
       e.code = some "ETIMEDOUT" ∨ strIncludes e.message "connect" = true)) ∧
    (saveToStrapi d now (some e)).2 =
      Except.error (if isConnectionError e then MAINTENANCE_MESSAGE
                    else "Failed to save plant data to database") ∧
    ((saveToStrapi d now (some e)).2 = Except.error MAINTENANCE_MESSAGE ∨
     (saveToStrapi d now (some e)).2 =
       Except.error "Failed to save plant data to database") := by
  have hiff : isConnectionError e = true ↔
      (e.code = some "ECONNREFUSED" ∨ e.code = some "ECONNRESET" ∨
       e.code = some "ETIMEDOUT" ∨ strIncludes e.message "connect" = true) := by
    unfold isConnectionError
    simp [Bool.or_eq_true, beq_iff_eq, or_assoc]
  have hne : ¬(("Failed to save plant data to database" : String) = MAINTENANCE_MESSAGE) := by
    decide
  refine ⟨?_, rfl, ?_⟩
  · rw [← hiff]
    by_cases hc : isConnectionError e
    · simp [saveToStrapi, hc]
    · simp [saveToStrapi, hc, hne]
  · by_cases hc : isConnectionError e <;> simp [saveToStrapi, hc]

/-- Claim C7, witness: a connection-refused error surfaces the
maintenance message. -/
theorem saveToStrapi_error_classification_witness :
    (saveToStrapi
      { plantName := some "Fern", closeImageId := none, locationImageId := none,
        imageAnalysis := none, latitude := 0, longitude := 0, phoneNumber := none,
        userId := some 7, isNewPlanting := false, isPlant := none, confidence := none }
      "T" (some { code := some "ECONNREFUSED", message := "boom" })).2 =
      Except.error MAINTENANCE_MESSAGE :=
  (saveToStrapi_error_classification
    { plantName := some "Fern", closeImageId := none, locationImageId := none,
      imageAnalysis := none, latitude := 0, longitude := 0, phoneNumber := none,
      userId := some 7, isNewPlanting := false, isPlant := none, confidence := none }
    "T" { code := some "ECONNREFUSED", message := "boom" }).1.mpr (Or.inl rfl)

/-- Claim C9: a photo arriving while `plantName` is still null does not
break the upload — the filename is derived from the fallback label
`unknown plant`, sanitised to `unknown_plant` plus the timestamp, and the
upload proceeds normally. -/
theorem handlePhotoUpload_fallback_name (s : Session) (ts fid : Nat) (furl : String)
    (h : s.plantName = none) :
    (handlePhotoUpload s ts (UploadOutcome.success fid furl)).1 =
      "unknown_plant_" ++ toString ts ++ ".jpg" ∧
    (handlePhotoUpload s ts (UploadOutcome.success fid furl)).2 =
      Except.ok (fid, furl) := by
  constructor
  · have hsan : sanitizePlantName "unknown plant" = "unknown_plant" := by decide
    have happ : ("unknown_plant" ++ "_" : String) = "unknown_plant_" := by decide
    show uploadFilename s.plantName ts = _
    rw [h]
    unfold uploadFilename
    rw [Option.getD_none, hsan, happ]
  · rfl

/-- Claim C9, witness. -/
theorem handlePhotoUpload_fallback_name_witness :
    (handlePhotoUpload initialSession 1700000000000 (UploadOutcome.success 3 "u")).1 =
      "unknown_plant_1700000000000.jpg" :=
  (handlePhotoUpload_fallback_name initialSession 1700000000000 3 "u" rfl).1

/-- Claim C10: a location event handled while `session.userId` is null
raises `No user ID found in session` before any persist call, and the
raise happens after `session.location` has already been written, so the
session is mutated even on this error path. -/
theorem handleLocation_missing_user (s : Session) (loc : Coord)
    (post : Option JsError) (now : String) (h : s.userId = none) :
    (handleLocation loc s post now).session.location = some loc ∧
    (handleLocation loc s post now).error = some "No user ID found in session" ∧
    (handleLocation loc s post now).saveAttempted = none := by
  unfold handleLocation
  simp [h]

/-- Claim C10, witness. -/
theorem handleLocation_missing_user_witness :
    (handleLocation { latitude := 1, longitude := 2 } initialSession none "T0").error =
      some "No user ID found in session" :=
  (handleLocation_missing_user initialSession { latitude := 1, longitude := 2 }
    none "T0" rfl).2.1

/-! ## Claim C8: one session per conversation identity -/

lemma countKey_storeSet_absent (st : Store) (cid : Nat) (v : Session)
    (h : storeGet st cid = none) :
    countKey (storeSet st cid v) cid = 1 := by
  induction st with
  | nil => simp [storeSet, countKey]
  | cons p rest ih =>
      rcases p with ⟨k, w⟩
      by_cases hk : k = cid
      · simp [storeGet, hk] at h
      · simp only [storeGet, hk, if_false] at h
        simp only [storeSet, hk, if_false, countKey, List.countP_cons, decide_eq_true_eq]
        simp only [hk, if_false, Nat.add_zero]
        exact ih h

/-- Claim C8: `initSession` keeps exactly one session per conversation
identity — when a session exists it is returned unchanged and the store
is untouched; when none exists exactly one fresh `IDLE` session is
created and stored, leaving every other identity's entry alone. -/
theorem initSession_per_identity (st : Store) (cid : Nat) :
    (∀ s, storeGet st cid = some s → initSession cid st = (s, st)) ∧
    (storeGet st cid = none →
      (initSession cid st).1 = initialSession ∧
      storeGet (initSession cid st).2 cid = some initialSession ∧
      countKey (initSession cid st).2 cid = 1 ∧
      ∀ k, k ≠ cid → storeGet (initSession cid st).2 k = storeGet st k) := by
  constructor
  · intro s hs
    unfold initSession
    rw [hs]
  · intro hn
    unfold initSession
    rw [hn]
    refine ⟨rfl, storeGet_storeSet_self st cid initialSession,
      countKey_storeSet_absent st cid initialSession hn, ?_⟩
    intro k hk
    exact storeGet_storeSet_ne st cid k initialSession hk

/-- Claim C8, witness. -/
theorem initSession_per_identity_witness :
    initSession 1 [(1, initialSession)] = (initialSession, [(1, initialSession)]) ∧
    countKey (initSession 2 ([] : Store)).2 2 = 1 :=
  ⟨(initSession_per_identity [(1, initialSession)] 1).1 initialSession rfl,
   ((initSession_per_identity ([] : Store) 2).2 rfl).2.2.1⟩

/-! ## Claim C4: the replace/keep protocol for a second distance shot -/

/-- Convenience constructor for a step oracle. -/
def mkOracle (lk : Except Unit (Option UserRec)) (u : UploadOutcome) (ts : Nat)
    (f : Bool) (c : ClassifierOutcome) (post : Option JsError) (now : String) :
    MsgOracle :=
  { phoneLookup := lk, upload := u, ts := ts, fetchOk := f, classifier := c,
    post := post, now := now }

/-- Claim C4, amended: a distance shot arriving while `locationImageId`
is set is staged in `pendingLocationImageId` without touching
`locationImageId`; while the pending slot is set, the message handler
intercepts every message — `/replace` promotes the pending id and clears
the slot, `/keep` discards it and clears the slot, and any other
*message* leaves the session untouched.  The `/newplanting` and
`/addplant` command handlers, however, still fire on their command texts
and mutate the session while the slot is pending (see the
counterexample); even they never write the pending slot itself, which
stays set until `/replace` or `/keep` — the final conjunct. -/
theorem pending_distance_shot_protocol
    (s : Session) (fid ts L : Nat) (furl now : String)
    (lk : Except Unit (Option UserRec)) (post : Option JsError)
    (a : ParsedAnalysis) (pd : PlantDetails)
    (hL : s.locationImageId = some L)
    (hpd : a.plantDetails = some pd)
    (hplant : a.isPlant = true)
    (hdist : pd.distance_shot = true)
    (hclose : pd.close_up = false) :
    ((processImage s (mkOracle lk (UploadOutcome.success fid furl) ts true
        (ClassifierOutcome.parsed a) post now)).1.locationImageId = some L ∧
     (processImage s (mkOracle lk (UploadOutcome.success fid furl) ts true
        (ClassifierOutcome.parsed a) post now)).1.pendingLocationImageId = some fid) ∧
    (∀ (m : Msg) (o : MsgOracle) (s' : Session), s'.pendingLocationImageId.isSome →
       (m.text = some "/replace" →
          (messageStep m o s').1 =
            { s' with locationImageId := s'.pendingLocationImageId,
                      pendingLocationImageId := none }) ∧
       (m.text = some "/keep" →
          (messageStep m o s').1 = { s' with pendingLocationImageId := none }) ∧
       (m.text ≠ some "/replace" → m.text ≠ some "/keep" →
          (messageStep m o s').1 = s')) ∧
    (∀ (lk2 : Except Unit (Option UserRec)) (b : Bool) (s' : Session),
       (commandLookup lk2 { s' with isNewPlanting := b }).pendingLocationImageId =
         s'.pendingLocationImageId) := by
  refine ⟨?_, ?_, ?_⟩
  · have hred : processImage s (mkOracle lk (UploadOutcome.success fid furl) ts true
        (ClassifierOutcome.parsed a) post now) =
        ({ (analyzeImage s true (ClassifierOutcome.parsed a)).1 with
            pendingLocationImageId := some fid }, Except.ok ()) := by
      unfold processImage mkOracle handlePhotoUpload
      simp only []
      have hres : analyzeImage s true (ClassifierOutcome.parsed a) =
          ({ s with isPlant := some true, confidence := pd.type_confidence,
                    imageAnalysis := some (plantTemplate a pd) },
           AnalyzeResult.plantAnalysis a) := by
        unfold analyzeImage
        simp [hpd, hplant]
      rw [hres]
      simp [resCloseUp, resDistance, hpd, hclose, hdist, hL]
    rw [hred]
    have hcore := analyzeImage_core s true (ClassifierOutcome.parsed a)
    constructor
    · show (analyzeImage s true (ClassifierOutcome.parsed a)).1.locationImageId = some L
      unfold analyzeImage
      simp [hpd, hplant, hL]
    · rfl
  · intro m o s' hpending
    refine ⟨?_, ?_, ?_⟩
    · intro hrep
      have hnc : ¬m.text = some "/cancel" := by rw [hrep]; simp
      unfold messageStep
      rw [if_neg hnc, if_pos hpending]
      unfold pendingStep
      rw [if_pos hrep]
    · intro hkeep
      have hnc : ¬m.text = some "/cancel" := by rw [hkeep]; simp
      have hnr : ¬m.text = some "/replace" := by rw [hkeep]; simp
      unfold messageStep
      rw [if_neg hnc, if_pos hpending]
      unfold pendingStep
      rw [if_neg hnr, if_pos hkeep]
    · intro h1 h2
      by_cases hnc : m.text = some "/cancel"
      · unfold messageStep
        rw [if_pos hnc]
      · unfold messageStep
        rw [if_neg hnc, if_pos hpending]
        unfold pendingStep
        rw [if_neg h1, if_neg h2]
  · intro lk2 b s'
    rcases lk2 with _ | u
    · rfl
    · rcases u with _ | u <;> rfl

/-- Claim C4, witness inputs. -/
def c4Session : Session := { initialSession with locationImageId := some 1 }

/-- Claim C4, witness inputs: a plant distance-shot verdict. -/
def c4Details : PlantDetails :=
  { close_up := false, distance_shot := true, type := none,
    type_confidence := some "medium", health := none, notable_features := none }

/-- Claim C4, witness inputs. -/
def c4Analysis : ParsedAnalysis :=
  { isPlant := true, description := some "wide shot", plantDetails := some c4Details }

/-- Claim C4, witness. -/
theorem pending_distance_shot_protocol_witness :
    (processImage c4Session (mkOracle (Except.ok none) (UploadOutcome.success 9 "url9")
        0 true (ClassifierOutcome.parsed c4Analysis) none "T")).1.pendingLocationImageId =
      some 9 ∧
    (messageStep { chatId := 1, text := some "/keep", photo := false,
                   location := none, contact := none }
        (mkOracle (Except.ok none) (UploadOutcome.success 9 "url9") 0 true
          (ClassifierOutcome.parsed c4Analysis) none "T")
        { initialSession with pendingLocationImageId := some 3 }).1 =
      { initialSession with pendingLocationImageId := none } :=
  ⟨(pending_distance_shot_protocol c4Session 9 0 1 "url9" "T" (Except.ok none) none
      c4Analysis c4Details rfl rfl rfl rfl rfl).1.2,
   ((pending_distance_shot_protocol c4Session 9 0 1 "url9" "T" (Except.ok none) none
      c4Analysis c4Details rfl rfl rfl rfl rfl).2.1 _ _
      { initialSession with pendingLocationImageId := some 3 } rfl).2.1 rfl⟩

/-! ## Demonstration run: a user resolved via `/addplant`, a plant named
`Fern`, a close-up and a distance shot, reaching `WAITING_FOR_LOCATION` -/

/-- A store user resolved by the command handlers. -/
def demoUser : UserRec :=
  { id := 7, username := some "alice", phoneNumber := some "+15551234567" }

/-- An oracle for steps that touch no external service beyond defaults. -/
def baseOracle : MsgOracle :=
  mkOracle (Except.ok none) (UploadOutcome.success 11 "file11") 5 true
    (ClassifierOutcome.failure false) none "T0"

/-- The plant-name message. -/
def fernMsg : Msg :=
  { chatId := 1, text := some "Fern", photo := false, location := none, contact := none }

/-- A photo message (no text). -/
def photoMsg : Msg :=
  { chatId := 1, text := none, photo := true, location := none, contact := none }

/-- A location share (no text, no photo). -/
def locMsg : Msg :=
  { chatId := 1, text := none, photo := false,
    location := some { latitude := 37, longitude := -122 }, contact := none }

/-- A `/cancel` message. -/
def cancelMsg : Msg :=
  { chatId := 1, text := some "/cancel", photo := false, location := none, contact := none }

/-- Oracle for the close-up photo step. -/
def closeOracle : MsgOracle :=
  mkOracle (Except.ok none) (UploadOutcome.success 21 "f21") 6 true
    (ClassifierOutcome.parsed
      { isPlant := true, description := some "green close shot",
        plantDetails := some
          { close_up := true, distance_shot := false, type := some "fern",
            type_confidence := some "high", health := some "healthy",
            notable_features := some "fronds" } }) none "T0"

/-- Oracle for the distance-shot photo step. -/
def distOracle : MsgOracle :=
  mkOracle (Except.ok none) (UploadOutcome.success 22 "f22") 7 true
    (ClassifierOutcome.parsed
      { isPlant := true, description := some "far shot",
        plantDetails := some
          { close_up := false, distance_shot := true, type := none,
            type_confidence := some "medium", health := none,
            notable_features := none } }) none "T0"

/-- After `/addplant` with a known user. -/
def demoStore1 : Store := applyEvent [] (Event.addplant 1 (Except.ok (some demoUser)))

/-- After naming the plant `Fern`. -/
def demoStore2 : Store := applyEvent demoStore1 (Event.message fernMsg baseOracle)

/-- After the close-up photo. -/
def demoStore3 : Store := applyEvent demoStore2 (Event.message photoMsg closeOracle)

/-- After the distance shot: the session is in `WAITING_FOR_LOCATION`. -/
def demoStore4 : Store := applyEvent demoStore3 (Event.message photoMsg distOracle)

/-- The session of chat 1 after the four demonstration events. -/
def demoSess : Session := (storeGet demoStore4 1).getD initialSession

lemma demoStore4_reachable : Reachable demoStore4 :=
  Reachable.step demoStore3 _ (Reachable.step demoStore2 _
    (Reachable.step demoStore1 _ (Reachable.step [] _ Reachable.init)))

/-- Oracle for a second distance shot, uploaded as file 23, arriving
while file 22 is already the location image. -/
def distOracle2 : MsgOracle :=
  mkOracle (Except.ok none) (UploadOutcome.success 23 "f23") 8 true
    (ClassifierOutcome.parsed
      { isPlant := true, description := some "another far shot",
        plantDetails := some
          { close_up := false, distance_shot := true, type := none,
            type_confidence := some "medium", health := none,
            notable_features := none } }) none "T0"

/-- After a second distance shot: `pendingLocationImageId = 23` awaits a
`/replace` or `/keep` decision. -/
def demoStore5 : Store := applyEvent demoStore4 (Event.message photoMsg distOracle2)

/-- The `/newplanting` `onText` handler firing while the decision is
still pending. -/
def demoStore6 : Store :=
  applyEvent demoStore5 (Event.newplanting 1 (Except.ok (some demoUser)))

/-- Claim C4, counterexample to the claim as stated: while
`pendingLocationImageId` is set, not all other input is ignored.  On the
reachable store whose chat-1 session awaits a replace/keep decision
(pending file 23, state `WAITING_FOR_LOCATION`, `isNewPlanting` false
from the earlier `/addplant`), a `/newplanting` text fires its `onText`
handler (`src/bot.js` lines 178-206), which flips `isNewPlanting`,
re-resolves the identity and moves the state to
`WAITING_FOR_PLANT_NAME` — all while the pending slot stays set. -/
theorem pending_commands_not_ignored :
    ((storeGet demoStore5 1).getD initialSession).pendingLocationImageId = some 23 ∧
    ((storeGet demoStore5 1).getD initialSession).state = BotState.WAITING_FOR_LOCATION ∧
    ((storeGet demoStore5 1).getD initialSession).isNewPlanting = false ∧
    ((storeGet demoStore6 1).getD initialSession).pendingLocationImageId = some 23 ∧
    ((storeGet demoStore6 1).getD initialSession).state = BotState.WAITING_FOR_PLANT_NAME ∧
    ((storeGet demoStore6 1).getD initialSession).isNewPlanting = true ∧
    storeGet demoStore6 1 ≠ storeGet demoStore5 1 :=
  ⟨rfl, rfl, rfl, rfl, rfl, rfl, by decide⟩

/-! ## Claim C1: `/cancel` is a no-op on an existing session (code bug) -/

/-- Claim C1 (exhibit of the divergence): handling `/cancel` for chat 1,
whose session is mid-flow (`WAITING_FOR_IMAGE`, plant name `Fern`),
leaves the store byte-for-byte unchanged — `initSession` returns the
existing session unmodified, so nothing is reset, contradicting the
claimed full reset to the state immediately after first contact. -/
theorem cancel_leaves_session_unchanged :
    applyEvent demoStore2 (Event.message cancelMsg baseOracle) = demoStore2 ∧
    applyEvent demoStore2 (Event.cancelCmd 1) = demoStore2 ∧
    storeGet demoStore2 1 ≠ some initialSession ∧
    ((storeGet demoStore2 1).getD initialSession).state = BotState.WAITING_FOR_IMAGE ∧
    ((storeGet demoStore2 1).getD initialSession).plantName = some "Fern" ∧
    ((storeGet demoStore2 1).getD initialSession).userId = some 7 :=
  ⟨rfl, rfl, by decide, rfl, rfl, rfl⟩

/-! ## Claim C2: persistence requires plant name and location -/

/-- Claim C2: for every reachable store, a session in
`WAITING_FOR_LOCATION` always carries a plant name (the state cannot be
reached without a prior plant-name step); whenever a message step reaches
the persist call, both `plantName` and `location` are set at that point;
and conversely a location event arriving in `WAITING_FOR_LOCATION` (with
no pending replace/keep decision intercepting it) does reach the persist
call — so persistence is attempted exactly on the step that completes the
pair, and never with a null `plantName`. -/
theorem reachable_persistence (st : Store) (hr : Reachable st) (cid : Nat)
    (sess : Session) (hget : storeGet st cid = some sess) :
    (sess.state = BotState.WAITING_FOR_LOCATION → sess.plantName.isSome) ∧
    (∀ (msg : Msg) (o : MsgOracle), (messageStep msg o sess).2.isSome →
       (messageStep msg o sess).1.plantName.isSome ∧
       (messageStep msg o sess).1.location.isSome) ∧
    (∀ (msg : Msg) (o : MsgOracle),
       sess.state = BotState.WAITING_FOR_LOCATION →
       sess.pendingLocationImageId = none → msg.text = none → msg.photo = false →
       msg.location.isSome → (messageStep msg o sess).2.isSome) := by
  have hinv : SessInv sess := reachable_inv hr cid sess hget
  refine ⟨fun h => (hinv.2.2 h).2, ?_, ?_⟩
  · intro msg o hsome
    obtain ⟨s2, loc, hp, hs2, hloc, heq⟩ := messageStep_save msg o sess hsome
    obtain ⟨hpn, hui⟩ := photoPhase_plantName msg o sess s2 true hp hinv hs2
    rw [heq]
    constructor
    · simpa [handleLocation_session] using hpn
    · simp [handleLocation_session]
  · intro msg o hWFL hpend htext hphoto hlocS
    obtain ⟨loc, hloc⟩ := Option.isSome_iff_exists.mp hlocS
    have hcancel : ¬msg.text = some "/cancel" := by rw [htext]; simp
    have hpendF : ¬sess.pendingLocationImageId.isSome = true := by rw [hpend]; simp
    have hphase : photoPhase msg o sess = (sess, true) := by
      unfold photoPhase
      simp [hphoto]
    have hidle : ¬(sess.state = BotState.IDLE ∧ textNotCommand msg.text) := by
      rintro ⟨h1, _⟩
      rw [hWFL] at h1
      cases h1
    unfold messageStep
    rw [if_neg hcancel, if_neg hpendF, hphase]
    simp only [postPhoto]
    rw [if_neg hidle]
    unfold switchPhase
    rw [hWFL]
    simp only [switchOn, hloc]
    exact handleLocation_attempted loc sess o.post o.now (hinv.2.2 hWFL).1

/-- Claim C2, witness: the demonstration run reaches
`WAITING_FOR_LOCATION` with a plant name present, and the location share
reaches the persist call. -/
theorem reachable_persistence_witness :
    demoSess.state = BotState.WAITING_FOR_LOCATION ∧
    demoSess.plantName.isSome ∧
    (messageStep locMsg baseOracle demoSess).2.isSome := by
  have h := reachable_persistence demoStore4 demoStore4_reachable 1 demoSess rfl
  exact ⟨rfl, h.1 rfl, h.2.2 locMsg baseOracle rfl rfl rfl rfl rfl⟩

end PlantBot
